import Mathlib

/-!
# Skyline JNI bridge (app/src/main/cpp/main.cpp)

A shallow embedding of the process-wide globals of `main.cpp` and of the entry
points that read and write them: `signalHandler`, `executeApplication`,
`setHalt`, `setSurface`, `getFps`, `getFrametime`, `setButtonState` and
`setAxisValue`.

Every entry point is a function on an explicit `State`.  An entry point that
can end the process or let a C++ exception escape returns an `Outcome`.
The controller devices of `skyline/input.h` are not part of this file of the
program, so the device type and its two methods are parameters.
-/

namespace Skyline

/-! ## Data model -/

/-- Identity of an object of the host virtual machine. -/
abbrev JObj := Nat

/-- A JNI global reference: the handle `NewGlobalRef` returns for an object. -/
structure GlobalRef where
  id : Nat
  obj : JObj
  deriving DecidableEq, Repr

/-- Index of an entry of `input->npad` (the enum `skyline::input::NpadId`). -/
abbrev NpadId := Nat

/-- Modelled from the spec: the identifier of player slot 1, `NpadId::Player1`; the
enum is declared in `skyline/input.h`, which is not among the sources. Only the
fact that it names one fixed entry is used. -/
def NpadId.Player1 : NpadId := 0

/-- The controller aggregate `skyline::Input`: one device per slot (`npad.at`). -/
structure Input (Dev : Type) where
  npad : NpadId → Dev

/-- The two methods of a controller device that `main.cpp` calls. Their bodies
live in `skyline/input.h`; they act on the device they are called on. -/
structure NpadOps (Dev : Type) where
  SetButtonState : Dev → Nat → Int → Dev
  SetAxisValue : Dev → Int → Int → Dev

/-- One line written with `syslog` by the signal handler. -/
structure SyslogEntry where
  priority : Nat
  signal : Int
  deriving DecidableEq, Repr

/-- Severity of a call to the session logger. -/
inductive LogLevel where
  | Error
  | Info
  deriving DecidableEq, Repr

/-- One call to the session logger (`logger->Info`, `logger->Error`). -/
structure LogEntry where
  level : LogLevel
  msg : String
  deriving DecidableEq, Repr

/-- The globals of `main.cpp` (lines 11-17) together with the parts of the
process they act on: the table of JNI global references this code created and
has not deleted, the signals bound to `signalHandler`, the scheduling priority
and the two log streams. `JniMtx` is left out: each entry point is taken as one
atomic step, which is what its lock/unlock pair provides. -/
structure State (Dev : Type) where
  Halt : Bool
  Surface : Option GlobalRef
  FaultCount : Nat
  fps : Nat
  frametime : Nat
  input : Option (Input Dev)
  globalRefs : List GlobalRef
  nextRef : Nat
  handlers : List Int
  niceness : Int
  syslog : List SyslogEntry
  log : List LogEntry

/-- A thrown C++ object: one derived from `std::exception` (with its `what()`),
or anything else. -/
inductive Exn where
  | std (what : String)
  | other
  deriving DecidableEq, Repr

/-- How a call ends: it returns, an exception leaves it, or the process exits. -/
inductive Outcome (Dev : Type) where
  | returned (s : State Dev)
  | thrown (e : Exn) (s : State Dev)
  | exited (code : Nat) (s : State Dev)

variable {Dev : Type}

/-- Whether the call came back to its caller. -/
def Outcome.isReturned : Outcome Dev → Bool
  | .returned _ => true
  | _ => false

/-- Whether the call ended the process. -/
def Outcome.isExited : Outcome Dev → Bool
  | .exited _ _ => true
  | _ => false

/-- The state in which the call ended. -/
def Outcome.state : Outcome Dev → State Dev
  | .returned s => s
  | .thrown _ s => s
  | .exited _ s => s

/-! ## Constants of `<csignal>` and `<syslog.h>` (Linux values) -/

def SIGINT : Int := 2
def SIGILL : Int := 4
def SIGABRT : Int := 6
def SIGFPE : Int := 8
def SIGKILL : Int := 9
def SIGSEGV : Int := 11
def SIGTERM : Int := 15
def LOG_ERR : Nat := 3

/-- Width of `uint` (`FaultCount`) and of `u32` (`frametime`). -/
def U32 : Nat := 2 ^ 32

/-- Width of `u16` (`fps`). -/
def U16 : Nat := 2 ^ 16

/-! ## signalHandler (lines 19-26) -/

/-- The handler bound to the six fatal signals. -/
def signalHandler (signal : Int) (s : State Dev) : Outcome Dev :=
  let s1 := { s with syslog := s.syslog ++ [⟨LOG_ERR, signal⟩] }
  if s1.FaultCount > 2 then
    .exited SIGKILL.toNat s1
  else
    let s2 := { s1 with Halt := true }
    .returned { s2 with FaultCount := (s2.FaultCount + 1) % U32 }

/-! ## setHalt, setSurface, getFps (lines 69-88) -/

/-- The setter of the halt flag: `Halt = halt`. -/
def setHalt (halt : Bool) (s : State Dev) : State Dev :=
  { s with Halt := halt }

/-- JNI `DeleteGlobalRef`: the reference leaves the table. -/
def DeleteGlobalRef (r : GlobalRef) (s : State Dev) : State Dev :=
  { s with globalRefs := s.globalRefs.filter (fun x => x ≠ r) }

/-- JNI `NewGlobalRef` on a non-null object: a fresh reference enters the table
(exhaustion of the reference table is not modelled). -/
def NewGlobalRef (obj : JObj) (s : State Dev) : GlobalRef × State Dev :=
  let r : GlobalRef := ⟨s.nextRef, obj⟩
  (r, { s with globalRefs := s.globalRefs ++ [r], nextRef := s.nextRef + 1 })

/-- The setter of the render target. `surface` is the local reference passed by
the host, `none` for null. -/
def setSurface (surface : Option JObj) (s : State Dev) : State Dev :=
  let s1 := match s.Surface with
    | some old => DeleteGlobalRef old s
    | none => s
  match surface with
  | some obj =>
    let (r, s2) := NewGlobalRef obj s1
    { s2 with Surface := some r }
  | none => { s1 with Surface := none }

/-- The getter of the frame rate: `return fps` as a `jint`. -/
def getFps (s : State Dev) : Int × State Dev :=
  ((s.fps : Int), s)

/-! ## setButtonState, setAxisValue (lines 94-104) -/

/-- The button relay: `static_cast<u64>(id)` is the mask handed to player 1. -/
def setButtonState (ops : NpadOps Dev) (id : Int) (state : Int) (s : State Dev) : State Dev :=
  match s.input with
  | some inp =>
    let button : Nat := (id % 2 ^ 64).toNat
    let dev := ops.SetButtonState (inp.npad NpadId.Player1) button state
    { s with input := some ⟨Function.update inp.npad NpadId.Player1 dev⟩ }
  | none => s

/-- The axis relay for player 1. -/
def setAxisValue (ops : NpadOps Dev) (id : Int) (value : Int) (s : State Dev) : State Dev :=
  match s.input with
  | some inp =>
    let dev := ops.SetAxisValue (inp.npad NpadId.Player1) id value
    { s with input := some ⟨Function.update inp.npad NpadId.Player1 dev⟩ }
  | none => s

/-! ## getFrametime (lines 90-92)

Values of IEEE-754 binary32 are rationals `m * 2 ^ e` with `m < 2 ^ 24`, so the
result of a binary32 operation is modelled as the rational it denotes. Every
non-zero value that occurs below lies between `2 ^ (-7)` and `2 ^ 32`, far from
the overflow threshold `2 ^ 128`, so infinities are left out; the lower exponent
limit of the format is kept. -/

/-- Nearest integer, a tie going to the even neighbour. -/
def roundHalfEven (t : ℚ) : ℤ :=
  if t - ⌊t⌋ < 1 / 2 then ⌊t⌋
  else if 1 / 2 < t - ⌊t⌋ then ⌊t⌋ + 1
  else if ⌊t⌋ % 2 = 0 then ⌊t⌋ else ⌊t⌋ + 1

/-- The exponent of the unit in the last place of the binary32 format at `q`:
24 significant bits, and no exponent below that of the subnormal numbers. -/
def F32.ulpExp (q : ℚ) : ℤ :=
  max (Int.log 2 q) (-126) - 23

/-- Rounding of a non-negative real result to binary32 in the default mode
(to nearest, ties to even). -/
def F32.round (q : ℚ) : ℚ :=
  if q ≤ 0 then 0
  else (roundHalfEven (q / 2 ^ F32.ulpExp q) : ℚ) * 2 ^ F32.ulpExp q

/-- The conversion `static_cast<float>(frametime)` of a `u32`. -/
def u32ToFloat (v : Nat) : ℚ :=
  F32.round (v : ℚ)

/-- The conversion of the `int` constant 100 to `float`. -/
def intToFloat (n : Nat) : ℚ :=
  F32.round (n : ℚ)

/-- The binary32 quotient of two binary32 values. -/
def F32.div (a b : ℚ) : ℚ :=
  F32.round (a / b)

/-- The getter of the frame time: `static_cast<float>(frametime) / 100`. -/
def getFrametime (s : State Dev) : ℚ × State Dev :=
  (F32.div (u32ToFloat s.frametime) (intToFloat 100), s)

/-! ## Sequences of calls made while a session runs -/

/-- The process before any entry point has run: the globals are zero-initialised,
no reference is held and no handler is bound. -/
def processStart : State Dev :=
  { Halt := false, Surface := none, FaultCount := 0, fps := 0, frametime := 0, input := none,
    globalRefs := [], nextRef := 0, handlers := [], niceness := 0, syslog := [], log := [] }

/-- Successive deliveries of fatal signals to `signalHandler`; nothing is
delivered after the process has exited. -/
def deliver : List Int → State Dev → Outcome Dev
  | [], s => .returned s
  | sig :: rest, s =>
    match signalHandler sig s with
    | .returned s1 => deliver rest s1
    | out => out

/-- A call that can arrive while a session runs: a fatal signal delivered to
`signalHandler`, or one of the exported entry points. -/
inductive Op where
  | signal (sig : Int)
  | setHalt (halt : Bool)
  | setSurface (surface : Option JObj)
  | getFps
  | getFrametime
  | setButtonState (id : Int) (state : Int)
  | setAxisValue (id : Int) (value : Int)
  deriving DecidableEq

/-- The effect of one call. -/
def step (ops : NpadOps Dev) : Op → State Dev → Outcome Dev
  | .signal sig, s => signalHandler sig s
  | .setHalt halt, s => .returned (setHalt halt s)
  | .setSurface surface, s => .returned (setSurface surface s)
  | .getFps, s => .returned (getFps s).2
  | .getFrametime, s => .returned (getFrametime s).2
  | .setButtonState id state, s => .returned (setButtonState ops id state s)
  | .setAxisValue id value, s => .returned (setAxisValue ops id value s)

/-- The effect of a sequence of calls; nothing runs after the process has exited. -/
def run (ops : NpadOps Dev) : List Op → State Dev → Outcome Dev
  | [], s => .returned s
  | op :: rest, s =>
    match step ops op s with
    | .returned s1 => run ops rest s1
    | out => out

/-- What happens while the engine executes: a call from the host or a signal,
or a store of the engine into one of the globals it produces. -/
inductive EngineEvent (Dev : Type) where
  | call (op : Op)
  | storeFps (v : Nat)
  | storeFrametime (v : Nat)
  | storeInput (i : Option (Input Dev))
  | log (entry : LogEntry)

/-- The effect of one event of the engine run. -/
def engineStep (ops : NpadOps Dev) : EngineEvent Dev → State Dev → Outcome Dev
  | .call op, s => step ops op s
  | .storeFps v, s => .returned { s with fps := v % U16 }
  | .storeFrametime v, s => .returned { s with frametime := v % U32 }
  | .storeInput i, s => .returned { s with input := i }
  | .log entry, s => .returned { s with log := s.log ++ [entry] }

/-- The effect of the events of an engine run, in order. -/
def runEngine (ops : NpadOps Dev) : List (EngineEvent Dev) → State Dev → Outcome Dev
  | [], s => .returned s
  | ev :: rest, s =>
    match engineStep ops ev s with
    | .returned s1 => runEngine ops rest s1
    | out => out

/-! ## executeApplication (lines 28-67) -/

/-- The characters `std::stoi` skips before the number (`isspace`). -/
def isSpace (c : Char) : Bool :=
  c.toNat = 32 || (9 ≤ c.toNat && c.toNat ≤ 13)

/-- The decimal digits. -/
def isDigit (c : Char) : Bool :=
  48 ≤ c.toNat && c.toNat ≤ 57

/-- The library function `std::stoi` in base 10: leading white space, an optional
sign, then digits up to the first other character. It throws
`std::invalid_argument` when there is no digit and `std::out_of_range` when the
value does not fit an `int`. -/
def stoi (str : String) : Except Exn Int :=
  let cs := str.toList.dropWhile isSpace
  let neg := cs.head? = some (Char.ofNat 45)
  let body :=
    if cs.head? = some (Char.ofNat 45) ∨ cs.head? = some (Char.ofNat 43) then cs.tail else cs
  let ds := body.takeWhile isDigit
  if ds = [] then .error (.std "stoi: no conversion")
  else
    let n : Nat := ds.foldl (fun a c => 10 * a + (c.toNat - 48)) 0
    let v : Int := if neg then -(n : Int) else (n : Int)
    if v < -(2 ^ 31) ∨ 2 ^ 31 - 1 < v then .error (.std "stoi: out of range")
    else .ok v

/-- The behaviour of everything `executeApplication` calls into: whether the
priority request is granted, how each constructor and lookup ends, what happens
while the engine executes and how `Execute` ends, and the measured duration.
`logger` is the constructor of the logger; `Info` and `Error` tell, for each
message, whether that call of the logger returns or throws. `romUri` stands for
line 51: the text of the ROM locator, or the object thrown while it is resolved.
Calls from the host and signals are taken to arrive while `Execute` runs, which
is where the call spends the session. -/
structure Collaborators (Dev : Type) where
  priorityGranted : Bool
  jvmManager : Except Exn Unit
  settings : Except Exn (String → Except Exn String)
  logger : Int → Except Exn Unit
  Info : String → Except Exn Unit
  Error : String → Except Exn Unit
  romUri : Except Exn String
  os : Except Exn Unit
  events : List (EngineEvent Dev)
  execute : Except Exn Unit
  elapsedMs : Nat

/-- The four assignments at the top of `executeApplication` (lines 29-32). -/
def resetSession (s : State Dev) : State Dev :=
  { s with Halt := false, FaultCount := 0, fps := 0, frametime := 0 }

/-- The call `std::signal(sig, signalHandler)`. -/
def stdSignal (sig : Int) (s : State Dev) : State Dev :=
  { s with handlers := if sig ∈ s.handlers then s.handlers else s.handlers ++ [sig] }

/-- The six calls of `std::signal` (lines 34-39). -/
def installSignalHandlers (s : State Dev) : State Dev :=
  stdSignal SIGFPE (stdSignal SIGABRT (stdSignal SIGILL (stdSignal SIGINT
    (stdSignal SIGSEGV (stdSignal SIGTERM s)))))

/-- The call of `setpriority` (line 41); its result is not looked at. -/
def setpriority (granted : Bool) (prio : Int) (s : State Dev) : State Dev :=
  if granted then { s with niceness := prio } else s

/-- The entry an Info call writes. -/
def logInfo (msg : String) (s : State Dev) : State Dev :=
  { s with log := s.log ++ [⟨.Info, msg⟩] }

/-- The entry an Error call writes. -/
def logError (msg : String) (s : State Dev) : State Dev :=
  { s with log := s.log ++ [⟨.Error, msg⟩] }

/-- A call `logger->Info(msg)`: it writes its entry, or throws. -/
def callInfo (c : Collaborators Dev) (msg : String) (s : State Dev) : Outcome Dev :=
  match c.Info msg with
  | .error e => .thrown e s
  | .ok _ => .returned (logInfo msg s)

/-- A call `logger->Error(msg)`: it writes its entry, or throws. -/
def callError (c : Collaborators Dev) (msg : String) (s : State Dev) : Outcome Dev :=
  match c.Error msg with
  | .error e => .thrown e s
  | .ok _ => .returned (logError msg s)

/-- The body of the `try` block (lines 51-56). -/
def tryBlock (ops : NpadOps Dev) (c : Collaborators Dev) (s : State Dev) : Outcome Dev :=
  match c.romUri with
  | .error e => .thrown e s
  | .ok romUri =>
    match callInfo c ("Launching ROM " ++ romUri) s with
    | .returned s1 =>
      match c.os with
      | .error e => .thrown e s1
      | .ok _ =>
        match runEngine ops c.events s1 with
        | .returned s2 =>
          match c.execute with
          | .error e => .thrown e s2
          | .ok _ => .returned s2
        | out => out
    | out => out

/-- The two log calls after the `try` statement (lines 63-66); an exception of
either leaves the function. -/
def finishSession (c : Collaborators Dev) (s : State Dev) : Outcome Dev :=
  match callInfo c "Emulation has ended" s with
  | .returned s1 => callInfo c ("Done in: " ++ toString c.elapsedMs ++ " ms") s1
  | out => out

/-- The `try` statement with its two handlers (lines 50-61), then the closing log
calls. The Error call of a handler is not inside the `try` block, so an exception
of it leaves the function. -/
def guardedSession (ops : NpadOps Dev) (c : Collaborators Dev) (s : State Dev) : Outcome Dev :=
  match tryBlock ops c s with
  | .returned s1 => finishSession c s1
  | .thrown (.std what) s1 =>
    match callError c what s1 with
    | .returned s2 => finishSession c s2
    | out => out
  | .thrown .other s1 =>
    match callError c "An unknown exception has occurred" s1 with
    | .returned s2 => finishSession c s2
    | out => out
  | .exited code s1 => .exited code s1

/-- The construction of the collaborators (lines 43-45), outside any `try`,
followed by the guarded part. -/
def construct (ops : NpadOps Dev) (c : Collaborators Dev) (s : State Dev) : Outcome Dev :=
  match c.jvmManager with
  | .error e => .thrown e s
  | .ok _ =>
    match c.settings with
    | .error e => .thrown e s
    | .ok GetString =>
      match GetString "log_level" with
      | .error e => .thrown e s
      | .ok str =>
        match stoi str with
        | .error e => .thrown e s
        | .ok level =>
          match c.logger level with
          | .error e => .thrown e s
          | .ok _ => guardedSession ops c s

/-- The entry point that runs one session. -/
def executeApplication (ops : NpadOps Dev) (c : Collaborators Dev) (s : State Dev) :
    Outcome Dev :=
  let s1 := { s with Halt := false }
  let s2 := { s1 with FaultCount := 0 }
  let s3 := { s2 with fps := 0 }
  let s4 := { s3 with frametime := 0 }
  let s5 := installSignalHandlers s4
  let s6 := setpriority c.priorityGranted (-8) s5
  construct ops c s6

/-! ## Definitions used in the statements -/

/-- The state a returning call of the handler leaves, when no wrap-around occurs. -/
def afterFault (signal : Int) (s : State Dev) : State Dev :=
  { s with syslog := s.syslog ++ [⟨LOG_ERR, signal⟩], Halt := true,
           FaultCount := s.FaultCount + 1 }

/-- Successive calls of `setSurface`, one per handle of the list. -/
def setSurfaces (surfaces : List (Option JObj)) (s : State Dev) : State Dev :=
  surfaces.foldl (fun st surface => setSurface surface st) s

/-- The state at the opening of the `try` statement. -/
def sessionStart (c : Collaborators Dev) (s : State Dev) : State Dev :=
  setpriority c.priorityGranted (-8) (installSignalHandlers (resetSession s))

/-- The session fields: halt flag, fault counter, frame rate and frame time. -/
def sessionFields (s : State Dev) : Bool × Nat × Nat × Nat :=
  (s.Halt, s.FaultCount, s.fps, s.frametime)

/-- Collaborators that all succeed, with the given events during the engine run
and the given text under the settings key. -/
def healthy (logLevel : String) (events : List (EngineEvent Unit)) : Collaborators Unit :=
  { priorityGranted := true, jvmManager := .ok (), settings := .ok (fun _ => .ok logLevel),
    logger := fun _ => .ok (), Info := fun _ => .ok (), Error := fun _ => .ok (),
    romUri := .ok "game.nro", os := .ok (), events := events, execute := .ok (),
    elapsedMs := 0 }

/-- The start state with `v` stored as the frame time. -/
def withFrametime (v : Nat) : State Unit :=
  { processStart with frametime := v }

/-! ## Properties of signalHandler -/

theorem afterFault_FaultCount (signal : Int) (s : State Dev) :
    (afterFault signal s).FaultCount = s.FaultCount + 1 := rfl

theorem afterFault_Halt (signal : Int) (s : State Dev) :
    (afterFault signal s).Halt = true := rfl

theorem afterFault_syslog_length (signal : Int) (s : State Dev) :
    (afterFault signal s).syslog.length = s.syslog.length + 1 := by
  simp [afterFault]

theorem signalHandler_of_le (signal : Int) (s : State Dev) (h : s.FaultCount ≤ 2) :
    signalHandler signal s = .returned (afterFault signal s) := by
  have h1 : ¬ s.FaultCount > 2 := by omega
  have h2 : (s.FaultCount + 1) % U32 = s.FaultCount + 1 := by
    apply Nat.mod_eq_of_lt
    have : (3 : Nat) < U32 := by decide
    omega
  simp [signalHandler, afterFault, h1, h2]

theorem signalHandler_of_gt (signal : Int) (s : State Dev) (h : 2 < s.FaultCount) :
    signalHandler signal s =
      .exited SIGKILL.toNat { s with syslog := s.syslog ++ [⟨LOG_ERR, signal⟩] } := by
  simp [signalHandler, h]

/-- C2. One call of the handler ends the process exactly when the fault counter
was above 2 before the call; otherwise it returns, with the halt flag set and
the fault counter one higher (no wrap-around of the unsigned counter). -/
theorem signalHandler_exits_iff (signal : Int) (s : State Dev) :
    ((signalHandler signal s).isExited = true ↔ 2 < s.FaultCount) ∧
    (¬ 2 < s.FaultCount →
      ∃ s1, signalHandler signal s = .returned s1 ∧ s1.Halt = true ∧
        s1.FaultCount = s.FaultCount + 1) := by
  by_cases h : 2 < s.FaultCount
  · refine ⟨?_, fun h1 => absurd h h1⟩
    rw [signalHandler_of_gt signal s h]
    simp [Outcome.isExited, h]
  · have h1 : s.FaultCount ≤ 2 := by omega
    rw [signalHandler_of_le signal s h1]
    refine ⟨?_, fun _ => ⟨_, rfl, rfl, rfl⟩⟩
    simp [Outcome.isExited, h]

theorem signalHandler_exits_iff_witness :
    ¬ 2 < (processStart : State Unit).FaultCount ∧
    ∃ s1, signalHandler SIGSEGV (processStart : State Unit) = .returned s1 ∧ s1.Halt = true ∧
      s1.FaultCount = (processStart : State Unit).FaultCount + 1 :=
  ⟨by decide, (signalHandler_exits_iff SIGSEGV (processStart : State Unit)).2 (by decide)⟩

theorem deliver_returns (sigs : List Int) :
    ∀ s : State Dev, s.FaultCount + sigs.length ≤ 3 →
      ∃ s1, deliver sigs s = .returned s1 ∧ s1.FaultCount = s.FaultCount + sigs.length ∧
        (s.Halt = true ∨ sigs ≠ [] → s1.Halt = true) ∧
        s1.syslog.length = s.syslog.length + sigs.length := by
  induction sigs with
  | nil =>
    intro s _
    exact ⟨s, rfl, rfl, fun h => h.elim id (fun h1 => absurd rfl h1), rfl⟩
  | cons sig rest ih =>
    intro s h
    simp only [List.length_cons] at h
    have hle : s.FaultCount ≤ 2 := by omega
    obtain ⟨s1, h1, h2, h3, h4⟩ := ih (afterFault sig s)
      (by rw [afterFault_FaultCount]; omega)
    rw [afterFault_FaultCount] at h2
    rw [afterFault_syslog_length] at h4
    refine ⟨s1, ?_, ?_, ?_, ?_⟩
    · simp only [deliver, signalHandler_of_le sig s hle]
      exact h1
    · rw [h2]
      simp only [List.length_cons]
      omega
    · intro _
      exact h3 (Or.inl (afterFault_Halt sig s))
    · rw [h4]
      simp only [List.length_cons]
      omega

theorem deliver_exits (sigs : List Int) :
    ∀ s : State Dev, s.FaultCount ≤ 3 → 3 < s.FaultCount + sigs.length →
      (deliver sigs s).isExited = true ∧
      (deliver sigs s).state.syslog.length = s.syslog.length + (4 - s.FaultCount) := by
  induction sigs with
  | nil =>
    intro s h1 h2
    simp only [List.length_nil] at h2
    omega
  | cons sig rest ih =>
    intro s h1 h2
    simp only [List.length_cons] at h2
    by_cases h : 2 < s.FaultCount
    · have h3 : s.FaultCount = 3 := by omega
      simp only [deliver, signalHandler_of_gt sig s h, Outcome.isExited, Outcome.state,
        List.length_append, List.length_cons, List.length_nil, h3, true_and]
    · have hle : s.FaultCount ≤ 2 := by omega
      obtain ⟨h4, h5⟩ := ih (afterFault sig s) (by rw [afterFault_FaultCount]; omega)
        (by rw [afterFault_FaultCount]; omega)
      rw [afterFault_FaultCount, afterFault_syslog_length] at h5
      simp only [deliver, signalHandler_of_le sig s hle]
      refine ⟨h4, ?_⟩
      rw [h5]
      omega

/-- C1, as the code has it. In a session (fault counter 0 at its start) the
first, the second and the third delivery of a fatal signal each set the halt
flag and leave the process running; the process ends on the fourth delivery,
which is the fourth call of the handler. -/
theorem deliver_exits_on_fourth (sigs : List Int) (s : State Dev) (h0 : s.FaultCount = 0) :
    (sigs.length ≤ 3 →
      ∃ s1, deliver sigs s = .returned s1 ∧ s1.FaultCount = sigs.length ∧
        (sigs ≠ [] → s1.Halt = true)) ∧
    (3 < sigs.length →
      (deliver sigs s).isExited = true ∧
      (deliver sigs s).state.syslog.length = s.syslog.length + 4) := by
  constructor
  · intro h
    obtain ⟨s1, h1, h2, h3, _⟩ := deliver_returns sigs s (by omega)
    exact ⟨s1, h1, by omega, fun hne => h3 (Or.inr hne)⟩
  · intro h
    have := deliver_exits sigs s (by omega) (by omega)
    rw [h0] at this
    exact this

theorem deliver_exits_on_fourth_witness :
    (∃ s1, deliver [SIGSEGV, SIGINT, SIGSEGV] (resetSession (processStart : State Unit))
        = .returned s1 ∧ s1.FaultCount = 3 ∧
        ([SIGSEGV, SIGINT, SIGSEGV] ≠ [] → s1.Halt = true)) ∧
    ((deliver [SIGSEGV, SIGINT, SIGSEGV, SIGTERM]
        (resetSession (processStart : State Unit))).isExited = true ∧
      (deliver [SIGSEGV, SIGINT, SIGSEGV, SIGTERM]
        (resetSession (processStart : State Unit))).state.syslog.length =
        (resetSession (processStart : State Unit)).syslog.length + 4) :=
  ⟨(deliver_exits_on_fourth [SIGSEGV, SIGINT, SIGSEGV]
      (resetSession (processStart : State Unit)) rfl).1 (by decide),
   (deliver_exits_on_fourth [SIGSEGV, SIGINT, SIGSEGV, SIGTERM]
      (resetSession (processStart : State Unit)) rfl).2 (by decide)⟩

/-- C1, as the claim has it, fails: after the reset of `executeApplication` the
third delivery of a fatal signal does not end the process; the handler
returns with the halt flag set and the fault counter at 3. -/
theorem third_delivery_returns :
    ∃ s1, deliver [SIGSEGV, SIGSEGV, SIGSEGV] (resetSession (processStart : State Unit))
        = .returned s1 ∧ s1.Halt = true ∧ s1.FaultCount = 3 ∧
      (deliver [SIGSEGV, SIGSEGV, SIGSEGV]
        (resetSession (processStart : State Unit))).isExited = false :=
  ⟨_, rfl, rfl, rfl, rfl⟩

/-! ## The halt flag and the fault counter along a session -/

theorem setSurface_Halt (surface : Option JObj) (s : State Dev) :
    (setSurface surface s).Halt = s.Halt := by
  cases surface <;> cases h : s.Surface <;> simp [setSurface, h, DeleteGlobalRef, NewGlobalRef]

theorem setSurface_FaultCount (surface : Option JObj) (s : State Dev) :
    (setSurface surface s).FaultCount = s.FaultCount := by
  cases surface <;> cases h : s.Surface <;> simp [setSurface, h, DeleteGlobalRef, NewGlobalRef]

theorem setButtonState_Halt (ops : NpadOps Dev) (id state : Int) (s : State Dev) :
    (setButtonState ops id state s).Halt = s.Halt := by
  cases h : s.input <;> simp [setButtonState, h]

theorem setButtonState_FaultCount (ops : NpadOps Dev) (id state : Int) (s : State Dev) :
    (setButtonState ops id state s).FaultCount = s.FaultCount := by
  cases h : s.input <;> simp [setButtonState, h]

theorem setAxisValue_Halt (ops : NpadOps Dev) (id value : Int) (s : State Dev) :
    (setAxisValue ops id value s).Halt = s.Halt := by
  cases h : s.input <;> simp [setAxisValue, h]

theorem setAxisValue_FaultCount (ops : NpadOps Dev) (id value : Int) (s : State Dev) :
    (setAxisValue ops id value s).FaultCount = s.FaultCount := by
  cases h : s.input <;> simp [setAxisValue, h]

theorem step_Halt (ops : NpadOps Dev) (op : Op) (s : State Dev) (hop : op ≠ .setHalt false)
    (h : s.Halt = true) : (step ops op s).state.Halt = true := by
  cases op with
  | signal sig =>
    by_cases hf : 2 < s.FaultCount
    · simp [step, signalHandler_of_gt sig s hf, Outcome.state, h]
    · simp [step, signalHandler_of_le sig s (by omega), Outcome.state, afterFault]
  | setHalt halt =>
    cases halt with
    | false => exact absurd rfl hop
    | true => rfl
  | setSurface surface => simpa [step, Outcome.state, setSurface_Halt] using h
  | getFps => simpa [step, Outcome.state, getFps] using h
  | getFrametime => simpa [step, Outcome.state, getFrametime] using h
  | setButtonState id state => simpa [step, Outcome.state, setButtonState_Halt] using h
  | setAxisValue id value => simpa [step, Outcome.state, setAxisValue_Halt] using h

theorem step_FaultCount (ops : NpadOps Dev) (op : Op) (s : State Dev) :
    s.FaultCount ≤ (step ops op s).state.FaultCount := by
  cases op with
  | signal sig =>
    by_cases hf : 2 < s.FaultCount
    · simp [step, signalHandler_of_gt sig s hf, Outcome.state]
    · simp [step, signalHandler_of_le sig s (by omega), Outcome.state, afterFault]
  | setHalt halt => simp [step, Outcome.state, setHalt]
  | setSurface surface => simp [step, Outcome.state, setSurface_FaultCount]
  | getFps => simp [step, Outcome.state, getFps]
  | getFrametime => simp [step, Outcome.state, getFrametime]
  | setButtonState id state => simp [step, Outcome.state, setButtonState_FaultCount]
  | setAxisValue id value => simp [step, Outcome.state, setAxisValue_FaultCount]

theorem run_cons (ops : NpadOps Dev) (op : Op) (rest : List Op) (s : State Dev) :
    run ops (op :: rest) s = run ops rest (step ops op s).state ∨
    (run ops (op :: rest) s = step ops op s ∧ (step ops op s).isReturned = false) := by
  cases h : step ops op s with
  | returned s1 => left; simp [run, h, Outcome.state]
  | thrown e s1 => right; simp [run, h, Outcome.isReturned]
  | exited code s1 => right; simp [run, h, Outcome.isReturned]

/-- C7, as the code has it. Along every sequence of calls that holds no
`setHalt(false)`, a halt flag that is true stays true: signal deliveries,
`setHalt(true)`, `setSurface`, `setButtonState`, `setAxisValue`, `getFps` and
`getFrametime` never clear it. -/
theorem halt_stays_set (ops : NpadOps Dev) (calls : List Op) :
    ∀ s : State Dev, (∀ op ∈ calls, op ≠ .setHalt false) → s.Halt = true →
      (run ops calls s).state.Halt = true := by
  induction calls with
  | nil => intro s _ h; exact h
  | cons op rest ih =>
    intro s hops h
    have h1 := step_Halt ops op s (hops op (List.mem_cons_self _ _)) h
    rcases run_cons ops op rest s with h2 | ⟨h2, _⟩
    · rw [h2]
      exact ih _ (fun o ho => hops o (List.mem_cons_of_mem _ ho)) h1
    · rw [h2]
      exact h1

theorem halt_stays_set_witness :
    (run (⟨fun d _ _ => d, fun d _ _ => d⟩ : NpadOps Unit)
      [.setSurface (some 5), .signal SIGINT, .setHalt true, .getFps]
      (setHalt true (processStart : State Unit))).state.Halt = true :=
  halt_stays_set _ [.setSurface (some 5), .signal SIGINT, .setHalt true, .getFps]
    (setHalt true (processStart : State Unit)) (by decide) rfl

/-- C7, as the claim has it, fails: `setHalt(false)` after `setHalt(true)`
within one session leaves the halt flag false. -/
theorem halt_cleared_by_setHalt :
    (setHalt true (resetSession (processStart : State Unit))).Halt = true ∧
    ∃ s1, run (⟨fun d _ _ => d, fun d _ _ => d⟩ : NpadOps Unit) [.setHalt false]
        (setHalt true (resetSession (processStart : State Unit))) = .returned s1 ∧
      s1.Halt = false :=
  ⟨rfl, _, rfl, rfl⟩

/-- C8. The fault counter of a session: `executeApplication` hands the rest of
the session a counter of 0; a returning call of the handler raises it by exactly
one (no wrap-around); `setHalt`, `setSurface`, `setButtonState`, `setAxisValue`,
`getFps` and `getFrametime` leave it as it is; hence it never decreases along
any sequence of calls. -/
theorem faultCount_only_increases (ops : NpadOps Dev) (c : Collaborators Dev) (s : State Dev) :
    (executeApplication ops c s =
        construct ops c (setpriority c.priorityGranted (-8)
          (installSignalHandlers (resetSession s))) ∧
      (setpriority c.priorityGranted (-8)
          (installSignalHandlers (resetSession s))).FaultCount = 0) ∧
    (∀ sig s1, signalHandler sig s = .returned s1 → s1.FaultCount = s.FaultCount + 1) ∧
    (∀ halt, (setHalt halt s).FaultCount = s.FaultCount) ∧
    (∀ surface, (setSurface surface s).FaultCount = s.FaultCount) ∧
    (∀ id state, (setButtonState ops id state s).FaultCount = s.FaultCount) ∧
    (∀ id value, (setAxisValue ops id value s).FaultCount = s.FaultCount) ∧
    (getFps s).2 = s ∧ (getFrametime s).2 = s ∧
    (∀ calls, s.FaultCount ≤ (run ops calls s).state.FaultCount) := by
  refine ⟨⟨rfl, ?_⟩, ?_, fun _ => rfl, fun surface => setSurface_FaultCount surface s,
    fun id state => setButtonState_FaultCount ops id state s,
    fun id value => setAxisValue_FaultCount ops id value s, rfl, rfl, ?_⟩
  · cases c.priorityGranted <;> rfl
  · intro sig s1 h
    by_cases hf : 2 < s.FaultCount
    · rw [signalHandler_of_gt sig s hf] at h
      cases h
    · rw [signalHandler_of_le sig s (by omega)] at h
      cases h
      rfl
  · intro calls
    induction calls generalizing s with
    | nil => exact le_refl _
    | cons op rest ih =>
      have h1 := step_FaultCount ops op s
      rcases run_cons ops op rest s with h2 | ⟨h2, _⟩
      · rw [h2]
        exact le_trans h1 (ih _)
      · rw [h2]
        exact h1

theorem faultCount_only_increases_witness :
    (afterFault SIGSEGV (processStart : State Unit)).FaultCount =
      (processStart : State Unit).FaultCount + 1 :=
  (faultCount_only_increases (⟨fun d _ _ => d, fun d _ _ => d⟩ : NpadOps Unit)
    (healthy "2" [])
    (processStart : State Unit)).2.1 SIGSEGV _ rfl

/-! ## The render target and its global reference -/

theorem setSurface_some (obj : JObj) (s : State Dev) (h : s.globalRefs = s.Surface.toList) :
    (setSurface (some obj) s).Surface = some ⟨s.nextRef, obj⟩ ∧
    (setSurface (some obj) s).globalRefs = [⟨s.nextRef, obj⟩] ∧
    (setSurface (some obj) s).nextRef = s.nextRef + 1 := by
  cases hS : s.Surface with
  | none =>
    rw [hS] at h
    simp [setSurface, hS, NewGlobalRef, h]
  | some old =>
    rw [hS] at h
    simp [setSurface, hS, NewGlobalRef, DeleteGlobalRef, h]

theorem setSurface_none (s : State Dev) (h : s.globalRefs = s.Surface.toList) :
    (setSurface none s).Surface = none ∧ (setSurface none s).globalRefs = [] := by
  cases hS : s.Surface with
  | none =>
    rw [hS] at h
    simp [setSurface, hS, h]
  | some old =>
    rw [hS] at h
    simp [setSurface, hS, DeleteGlobalRef, h]

theorem setSurface_held (surface : Option JObj) (s : State Dev)
    (h : s.globalRefs = s.Surface.toList) :
    (setSurface surface s).globalRefs = (setSurface surface s).Surface.toList := by
  cases surface with
  | none =>
    obtain ⟨h1, h2⟩ := setSurface_none s h
    rw [h1, h2]
    rfl
  | some obj =>
    obtain ⟨h1, h2, _⟩ := setSurface_some obj s h
    rw [h1, h2]
    rfl

theorem setSurfaces_held (surfaces : List (Option JObj)) :
    ∀ s : State Dev, s.globalRefs = s.Surface.toList →
      (setSurfaces surfaces s).globalRefs = (setSurfaces surfaces s).Surface.toList := by
  induction surfaces with
  | nil => intro s h; exact h
  | cons surface rest ih =>
    intro s h
    exact ih (setSurface surface s) (setSurface_held surface s h)

/-- C6. From a process that holds no render target, after every sequence of
`setSurface` calls the global references created and not yet deleted are
exactly the one in `Surface`, or none when `Surface` is null. In particular
two further calls with non-null handles `h1` then `h2` leave the reference made
for `h1` deleted and only the one made for `h2` held. -/
theorem surface_holds_one_reference (surfaces : List (Option JObj)) (s : State Dev)
    (hS : s.Surface = none) (hR : s.globalRefs = []) :
    (setSurfaces surfaces s).globalRefs = (setSurfaces surfaces s).Surface.toList ∧
    ∀ h1 h2 : JObj, ∃ r1 r2 : GlobalRef,
      (setSurface (some h1) (setSurfaces surfaces s)).Surface = some r1 ∧ r1.obj = h1 ∧
      (setSurface (some h1) (setSurfaces surfaces s)).globalRefs = [r1] ∧
      (setSurface (some h2) (setSurface (some h1) (setSurfaces surfaces s))).Surface = some r2 ∧
      r2.obj = h2 ∧
      (setSurface (some h2) (setSurface (some h1) (setSurfaces surfaces s))).globalRefs = [r2] ∧
      r1 ∉ (setSurface (some h2) (setSurface (some h1) (setSurfaces surfaces s))).globalRefs := by
  have h0 : s.globalRefs = s.Surface.toList := by rw [hS, hR]; rfl
  have hinv := setSurfaces_held surfaces s h0
  refine ⟨hinv, fun h1 h2 => ?_⟩
  obtain ⟨a1, a2, a3⟩ := setSurface_some h1 (setSurfaces surfaces s) hinv
  obtain ⟨b1, b2, _⟩ := setSurface_some h2 (setSurface (some h1) (setSurfaces surfaces s))
    (setSurface_held (some h1) _ hinv)
  refine ⟨_, _, a1, rfl, a2, b1, rfl, b2, ?_⟩
  rw [b2, a3]
  simp

theorem surface_holds_one_reference_witness :
    (setSurfaces [some 5, none, some 7] (processStart : State Unit)).globalRefs =
      (setSurfaces [some 5, none, some 7] (processStart : State Unit)).Surface.toList :=
  (surface_holds_one_reference [some 5, none, some 7] (processStart : State Unit) rfl rfl).1

/-! ## The input relay -/

/-- C10. `setButtonState` and `setAxisValue` touch nothing but the entry of
player slot 1 of the controller aggregate: with a null aggregate each returns
with the whole state unchanged, and with an aggregate present every other slot
and every other field of the state is unchanged. Neither can raise an error. -/
theorem input_relay_frame (ops : NpadOps Dev) (a b : Int) (s : State Dev) :
    (s.input = none → setButtonState ops a b s = s ∧ setAxisValue ops a b s = s) ∧
    (∀ inp, s.input = some inp →
      ∃ i1 i2 : Input Dev,
        setButtonState ops a b s = { s with input := some i1 } ∧
        setAxisValue ops a b s = { s with input := some i2 } ∧
        ∀ slot : NpadId, slot ≠ NpadId.Player1 →
          i1.npad slot = inp.npad slot ∧ i2.npad slot = inp.npad slot) := by
  constructor
  · intro h
    simp [setButtonState, setAxisValue, h]
  · intro inp h
    refine ⟨⟨Function.update inp.npad NpadId.Player1
        (ops.SetButtonState (inp.npad NpadId.Player1) (a % 2 ^ 64).toNat b)⟩,
      ⟨Function.update inp.npad NpadId.Player1
        (ops.SetAxisValue (inp.npad NpadId.Player1) a b)⟩, ?_, ?_,
      fun slot hs => ⟨Function.update_noteq hs _ _, Function.update_noteq hs _ _⟩⟩
    · simp only [setButtonState, h]
    · simp only [setAxisValue, h]

theorem input_relay_frame_witness :
    (setButtonState (⟨fun d m _ => d + m, fun d _ v => d + v.toNat⟩ : NpadOps Nat) 4 1
        (processStart : State Nat) = processStart ∧
      setAxisValue (⟨fun d m _ => d + m, fun d _ v => d + v.toNat⟩ : NpadOps Nat) 4 1
        (processStart : State Nat) = processStart) ∧
    ∃ i1 i2 : Input Nat,
      setButtonState (⟨fun d m _ => d + m, fun d _ v => d + v.toNat⟩ : NpadOps Nat) 4 1
          (engineStep (⟨fun d m _ => d + m, fun d _ v => d + v.toNat⟩ : NpadOps Nat)
            (.storeInput (some ⟨fun _ => 0⟩)) (processStart : State Nat)).state =
        { (engineStep (⟨fun d m _ => d + m, fun d _ v => d + v.toNat⟩ : NpadOps Nat)
            (.storeInput (some ⟨fun _ => 0⟩)) (processStart : State Nat)).state with
          input := some i1 } ∧
      setAxisValue (⟨fun d m _ => d + m, fun d _ v => d + v.toNat⟩ : NpadOps Nat) 4 1
          (engineStep (⟨fun d m _ => d + m, fun d _ v => d + v.toNat⟩ : NpadOps Nat)
            (.storeInput (some ⟨fun _ => 0⟩)) (processStart : State Nat)).state =
        { (engineStep (⟨fun d m _ => d + m, fun d _ v => d + v.toNat⟩ : NpadOps Nat)
            (.storeInput (some ⟨fun _ => 0⟩)) (processStart : State Nat)).state with
          input := some i2 } ∧
      ∀ slot : NpadId, slot ≠ NpadId.Player1 →
        i1.npad slot = 0 ∧ i2.npad slot = 0 :=
  ⟨(input_relay_frame (⟨fun d m _ => d + m, fun d _ v => d + v.toNat⟩ : NpadOps Nat) 4 1
      (processStart : State Nat)).1 rfl,
   (input_relay_frame (⟨fun d m _ => d + m, fun d _ v => d + v.toNat⟩ : NpadOps Nat) 4 1
      (engineStep (⟨fun d m _ => d + m, fun d _ v => d + v.toNat⟩ : NpadOps Nat)
        (.storeInput (some ⟨fun _ => 0⟩)) (processStart : State Nat)).state).2
      ⟨fun _ => 0⟩ rfl⟩

/-! ## executeApplication -/

theorem sessionStart_fields (c : Collaborators Dev) (s : State Dev) :
    sessionFields (sessionStart c s) = (false, 0, 0, 0) := by
  cases h : c.priorityGranted <;> simp [sessionStart, h, setpriority] <;> rfl

/-- C4. Whatever the globals held before, `executeApplication` first sets the
halt flag to false and the fault counter, frame rate and frame time to 0; at that
point no handler has been bound and nothing has been logged, and the handlers,
the priority request, the collaborators and the engine all run from that reset
state. The outcome of the call does not depend on the prior values. -/
theorem executeApplication_resets_first (ops : NpadOps Dev) (c : Collaborators Dev)
    (s : State Dev) :
    executeApplication ops c s =
      construct ops c (setpriority c.priorityGranted (-8)
        (installSignalHandlers (resetSession s))) ∧
    ((resetSession s).Halt = false ∧ (resetSession s).FaultCount = 0 ∧
      (resetSession s).fps = 0 ∧ (resetSession s).frametime = 0) ∧
    ((resetSession s).handlers = s.handlers ∧ (resetSession s).log = s.log ∧
      (resetSession s).syslog = s.syslog ∧ (resetSession s).niceness = s.niceness) ∧
    sessionFields (installSignalHandlers (resetSession s)) = (false, 0, 0, 0) ∧
    sessionFields (setpriority c.priorityGranted (-8)
      (installSignalHandlers (resetSession s))) = (false, 0, 0, 0) ∧
    ∀ (halt : Bool) (faults rate time : Nat),
      executeApplication ops c
        { s with Halt := halt, FaultCount := faults, fps := rate, frametime := time } =
      executeApplication ops c s :=
  ⟨rfl, ⟨rfl, rfl, rfl, rfl⟩, ⟨rfl, rfl, rfl, rfl⟩, rfl, sessionStart_fields c s,
    fun _ _ _ _ => rfl⟩

theorem roundHalfEven_intCast (n : ℤ) : roundHalfEven (n : ℚ) = n := by
  simp [roundHalfEven]

theorem roundHalfEven_error (t : ℚ) : |(roundHalfEven t : ℚ) - t| ≤ 1 / 2 := by
  have h1 := Int.floor_le t
  have h2 := Int.lt_floor_add_one t
  unfold roundHalfEven
  rw [abs_le]
  split_ifs with a b c
  · constructor <;> linarith
  · push_cast; constructor <;> linarith
  · constructor <;> linarith
  · push_cast; constructor <;> linarith

theorem ulpExp_of_le (q : ℚ) (hq : (2 : ℚ) ^ (-126 : ℤ) ≤ q) :
    F32.ulpExp q = Int.log 2 q - 23 := by
  have hpos : 0 < q := lt_of_lt_of_le (by positivity) hq
  have h : (-126 : ℤ) ≤ Int.log 2 q := by
    have := (Int.zpow_le_iff_le_log (b := 2) (by norm_num) hpos (x := -126)).1 (by exact_mod_cast hq)
    exact this
  simp [F32.ulpExp, h]

theorem round_error (q : ℚ) (hq : (2 : ℚ) ^ (-126 : ℤ) ≤ q) :
    |F32.round q - q| ≤ q / 2 ^ 24 := by
  have hpos : 0 < q := lt_of_lt_of_le (by positivity) hq
  have hlog : ((2 : ℕ) : ℚ) ^ Int.log 2 q ≤ q := Int.zpow_log_le_self (by norm_num) hpos
  have hu : (0 : ℚ) < 2 ^ F32.ulpExp q := by positivity
  have he := roundHalfEven_error (q / 2 ^ F32.ulpExp q)
  have hr : F32.round q - q =
      ((roundHalfEven (q / 2 ^ F32.ulpExp q) : ℚ) - q / 2 ^ F32.ulpExp q) * 2 ^ F32.ulpExp q := by
    unfold F32.round
    rw [if_neg (not_le.mpr hpos)]
    field_simp
  rw [hr, abs_mul, abs_of_pos hu]
  have h3 : (2 : ℚ) ^ F32.ulpExp q = 2 ^ Int.log 2 q / 2 ^ 23 := by
    rw [ulpExp_of_le q hq, zpow_sub₀ (by norm_num)]
    norm_num
  calc |(roundHalfEven (q / 2 ^ F32.ulpExp q) : ℚ) - q / 2 ^ F32.ulpExp q| * 2 ^ F32.ulpExp q
      ≤ 1 / 2 * 2 ^ F32.ulpExp q := by
        exact mul_le_mul_of_nonneg_right he hu.le
    _ = 2 ^ Int.log 2 q / 2 ^ 24 := by rw [h3]; ring
    _ ≤ q / 2 ^ 24 := by
        apply div_le_div_of_nonneg_right _ (by positivity)
        exact_mod_cast hlog

theorem ulpExp_le (n : ℕ) (j : ℤ) (hn : 0 < n) (hlt : n < 2 ^ 24) (hj : -149 ≤ j) :
    F32.ulpExp ((n : ℚ) * 2 ^ j) ≤ j := by
  have hpos : (0 : ℚ) < (n : ℚ) * 2 ^ j := by positivity
  have hq : (n : ℚ) * 2 ^ j < ((2 : ℕ) : ℚ) ^ (24 + j) := by
    have h2 : (0 : ℚ) < 2 ^ j := by positivity
    have h3 : (n : ℚ) < 2 ^ 24 := by exact_mod_cast hlt
    have h4 : ((2 : ℕ) : ℚ) ^ (24 + j) = 2 ^ 24 * 2 ^ j := by
      rw [zpow_add₀ (by norm_num)]
      norm_num
    rw [h4]
    exact mul_lt_mul_of_pos_right h3 h2
  have hk : Int.log 2 ((n : ℚ) * 2 ^ j) < 24 + j :=
    (Int.lt_zpow_iff_log_lt (b := 2) (by norm_num) hpos).1 hq
  unfold F32.ulpExp
  rcases le_total (Int.log 2 ((n : ℚ) * 2 ^ j)) (-126) with h | h
  · rw [max_eq_right h]; omega
  · rw [max_eq_left h]; omega

theorem round_exact (n : ℕ) (j : ℤ) (hn : 0 < n) (hlt : n < 2 ^ 24) (hj : -149 ≤ j) :
    F32.round ((n : ℚ) * 2 ^ j) = (n : ℚ) * 2 ^ j := by
  have hpos : (0 : ℚ) < (n : ℚ) * 2 ^ j := by positivity
  have he := ulpExp_le n j hn hlt hj
  obtain ⟨d, hd⟩ := Int.eq_ofNat_of_zero_le (sub_nonneg.mpr he)
  have hj2 : j = (d : ℤ) + F32.ulpExp ((n : ℚ) * 2 ^ j) := by omega
  have ht : (n : ℚ) * 2 ^ j / 2 ^ F32.ulpExp ((n : ℚ) * 2 ^ j) = (((n * 2 ^ d : ℕ) : ℤ) : ℚ) := by
    have hu : (2 : ℚ) ^ F32.ulpExp ((n : ℚ) * 2 ^ j) ≠ 0 := by positivity
    rw [div_eq_iff hu]
    nth_rewrite 1 [hj2]
    rw [zpow_add₀ (by norm_num)]
    push_cast
    rw [zpow_natCast]
    ring
  unfold F32.round
  rw [if_neg (not_le.mpr hpos), ht, roundHalfEven_intCast, ← ht]
  have hu : (2 : ℚ) ^ F32.ulpExp ((n : ℚ) * 2 ^ j) ≠ 0 := by positivity
  field_simp

theorem round_zero : F32.round 0 = 0 := by simp [F32.round]

theorem round_natCast (n : ℕ) (hlt : n < 2 ^ 24) : F32.round (n : ℚ) = n := by
  rcases Nat.eq_zero_or_pos n with h | h
  · subst h; simp [F32.round]
  · have := round_exact n 0 h hlt (by norm_num)
    simpa using this

theorem intToFloat_100 : intToFloat 100 = 100 := by
  have := round_natCast 100 (by norm_num)
  simpa [intToFloat] using this

theorem log_one_hundredth : Int.log 2 ((1 : ℚ) / 100) = -7 := by
  have hpos : (0 : ℚ) < 1 / 100 := by norm_num
  have h1 : Int.log 2 ((1 : ℚ) / 100) < -6 :=
    (Int.lt_zpow_iff_log_lt (b := 2) (by norm_num) hpos).1 (by norm_num)
  have h2 : -7 ≤ Int.log 2 ((1 : ℚ) / 100) :=
    (Int.zpow_le_iff_le_log (b := 2) (by norm_num) hpos).1 (by norm_num)
  omega

theorem round_one_hundredth : F32.round ((1 : ℚ) / 100) = 5368709 / 536870912 := by
  have hu : F32.ulpExp ((1 : ℚ) / 100) = -30 := by
    unfold F32.ulpExp
    rw [log_one_hundredth]
    norm_num
  have ht : (1 : ℚ) / 100 / 2 ^ (-30 : ℤ) = 268435456 / 25 := by norm_num
  have hf : ⌊(268435456 : ℚ) / 25⌋ = 10737418 := by
    rw [Int.floor_eq_iff]
    norm_num
  have hr : roundHalfEven ((268435456 : ℚ) / 25) = 10737418 := by
    unfold roundHalfEven
    rw [hf]
    norm_num
  unfold F32.round
  rw [if_neg (by norm_num), hu, ht, hr]
  norm_num

/-- C9, as the code has it. For every stored `u32` frame time `v`, `getFrametime`
changes no state and returns the binary32 quotient of `float(v)` by 100: a value
within relative error `2 ^ (-22)` of `v / 100` and below `2 ^ 26` (no overflow),
and exactly `v / 100` when `v < 2 ^ 24` is a multiple of 25, as for 250, which is
returned as 2.5. -/
theorem getFrametime_rounds_quotient (s : State Dev) (hv : s.frametime < 2 ^ 32) :
    (getFrametime s).2 = s ∧
    |(getFrametime s).1 - (s.frametime : ℚ) / 100| ≤ (s.frametime : ℚ) / 100 / 2 ^ 22 ∧
    (getFrametime s).1 < 2 ^ 26 ∧
    (s.frametime < 2 ^ 24 → 25 ∣ s.frametime →
      (getFrametime s).1 = (s.frametime : ℚ) / 100) := by
  have hval : (getFrametime s).1 = F32.round (F32.round (s.frametime : ℚ) / 100) := by
    simp [getFrametime, F32.div, u32ToFloat, intToFloat_100]
  have hbound : |(getFrametime s).1 - (s.frametime : ℚ) / 100|
      ≤ (s.frametime : ℚ) / 100 / 2 ^ 22 := by
    rw [hval]
    rcases Nat.eq_zero_or_pos s.frametime with h0 | h0
    · rw [h0]
      simp [round_zero]
    · have hv1 : (1 : ℚ) ≤ (s.frametime : ℚ) := by exact_mod_cast h0
      have h1 := round_error (s.frametime : ℚ)
        (le_trans (by norm_num) hv1)
      rw [abs_le] at h1
      have h2 := round_error (F32.round (s.frametime : ℚ) / 100) (by
        have : (2 : ℚ) ^ (-126 : ℤ) ≤ 1 / 200 := by
          rw [zpow_neg, inv_le_comm₀ (by positivity) (by norm_num)]
          norm_num
        linarith [h1.1])
      rw [abs_le] at h2
      rw [abs_le]
      constructor <;> linarith [h1.1, h1.2, h2.1, h2.2]
  refine ⟨rfl, hbound, ?_, ?_⟩
  · have h3 : (s.frametime : ℚ) < 2 ^ 32 := by exact_mod_cast hv
    have h4 : (0 : ℚ) ≤ (s.frametime : ℚ) := by positivity
    rw [abs_le] at hbound
    linarith [hbound.2]
  · intro hlt hdvd
    rw [hval, round_natCast s.frametime hlt]
    obtain ⟨w, hw⟩ := hdvd
    rcases Nat.eq_zero_or_pos w with h0 | h0
    · rw [hw, h0]
      simp [round_zero]
    · have hw2 : w < 2 ^ 24 := by omega
      have := round_exact w (-2) h0 hw2 (by norm_num)
      have he : ((s.frametime : ℚ)) / 100 = (w : ℚ) * 2 ^ (-2 : ℤ) := by
        rw [hw]
        push_cast
        rw [zpow_neg]
        norm_num
        ring
      rw [he]
      exact this

theorem getFrametime_rounds_quotient_witness :
    (getFrametime (withFrametime 250)).2 = withFrametime 250 ∧
    (getFrametime (withFrametime 250)).1 = 5 / 2 := by
  have h := getFrametime_rounds_quotient (withFrametime 250) (by decide)
  refine ⟨h.1, ?_⟩
  rw [h.2.2.2 (by decide) (by decide)]
  norm_num [withFrametime, processStart]

/-- C9, as the claim has it, fails: a stored frame time of 1 is returned as the
binary32 number `10737418 * 2 ^ (-30)`, which is not `1 / 100`. -/
theorem getFrametime_inexact :
    (getFrametime (withFrametime 1)).1 = 5368709 / 536870912 ∧
    (getFrametime (withFrametime 1)).1 ≠ ((withFrametime 1).frametime : ℚ) / 100 := by
  have h : (getFrametime (withFrametime 1)).1 = 5368709 / 536870912 := by
    have h1 : u32ToFloat 1 = 1 := by
      have := round_natCast 1 (by norm_num)
      simpa [u32ToFloat] using this
    simp only [getFrametime, withFrametime, processStart, F32.div, h1, intToFloat_100]
    exact round_one_hundredth
  refine ⟨h, ?_⟩
  rw [h]
  norm_num [withFrametime, processStart]

end Skyline
